import Mathlib

/-!
Verification development for the WhatsappBridge event pipeline.

The definitions below are a shallow embedding of the JavaScript sources:

* `store.js` — the in-page deduplication filter `shouldProcessMessage`
  together with its message cache (a JS `Map` from string keys to
  millisecond timestamps);
* `templates/eventTransformers.js` (the `EventTransformers` class) — the
  transformation engine: ignore rules, the ack-level mapping, the status
  and chat-message mappers and the passthrough fallback;
* `src/EventProcessor.js` — the per-event routing decision
  (skip / ignore / filter / publish / error);
* `src/StatsCollector.js` — `updateEventStats`;
* `src/NATSManager.js` — destination resolution (`determineSubject`);
* `index.js` — the bridge orchestration: per-event stats and publishing
  (`WhatsAppBridge.processEvent`) and the polling loop with retry and
  fatal-error handling (`startEventPolling`).

JavaScript truthiness on optional string / integer fields is modelled
explicitly (an absent field and a JS `null` / `undefined` value are both
`Option.none`; an empty string and the integer 0 are falsy).  Times are
integers (milliseconds).  `Date.prototype.toISOString` formats valid
time values through an abstract environment formatter `iso` and throws
`RangeError` on an invalid date (a time value farther than
8,640,000,000,000,000 ms from the epoch), modelled by
`jsDateToISOString` returning `Except`.
-/

/-- JS truthiness of an optional string: absent/null and the empty string
are falsy. -/
def truthy : Option String → Bool
  | none => false
  | some s => s ≠ ""

/-- JS `a || b` on optional strings: returns `a` when truthy, else `b`
(as-is, even when `b` is itself falsy). -/
def jsOr (a b : Option String) : Option String :=
  if truthy a then a else b

/-- JS `a || null` on an optional string. -/
def orNull (a : Option String) : Option String :=
  if truthy a then a else none

/-- JS truthiness of an optional integer: absent/null and 0 are falsy. -/
def truthyI : Option Int → Bool
  | none => false
  | some t => t ≠ 0

/-- JS `a || null` on an optional integer. -/
def orNullI (a : Option Int) : Option Int :=
  if truthyI a then a else none

/-- `String.includes`: substring occurrence test, by scanning for a
prefix match at every suffix. -/
def charsInclude (pat : List Char) : List Char → Bool
  | [] => pat.isPrefixOf ([] : List Char)
  | c :: rest => pat.isPrefixOf (c :: rest) || charsInclude pat rest

/-- JS `s?.includes(pat)` on an optional string (undefined receiver is
falsy). -/
def optIncludes (o : Option String) (pat : String) : Bool :=
  match o with
  | none => false
  | some s => charsInclude pat.data s.data

/-! ## Deduplication filter (`store.js`, `shouldProcessMessage`)

The in-page script keeps `processedMessages`, a JS `Map` from the string
key `messageId + "_" + eventType + "_" + (msg.ack || 0)` to the
millisecond timestamp at which the key was first recorded.  We model the
`Map` as an association list in insertion order. -/

/-- The `msg.id` object: only its `_serialized` field is read. -/
structure DedupMsgId where
  serialized : Option String
deriving DecidableEq

/-- The slice of a raw message object read by `shouldProcessMessage`. -/
structure DedupMsg where
  id : Option DedupMsgId
  ack : Option Int
deriving DecidableEq

/-- JS `Map.prototype.set`: update the entry in place when the key is
present, otherwise append at the end (insertion order). -/
def mapSet (c : List (String × Int)) (k : String) (v : Int) : List (String × Int) :=
  if (c.lookup k).isSome then
    c.map (fun p => if p.1 = k then (k, v) else p)
  else
    c ++ [(k, v)]

/-- `shouldProcessMessage(msg, eventType)` from `store.js`, with the
ambient cache and `Date.now()` made explicit.  Returns the decision and
the updated cache.  Faithful points: a message without a truthy
`id._serialized` is rejected (`return false`); a cache hit suppresses
without touching the stored timestamp; on a miss the key is recorded at
`now` and, when the cache population exceeds 1000, one sweep deletes
every entry strictly older than `now` minus five minutes. -/
def shouldProcessMessage (cache : List (String × Int)) (msg : DedupMsg)
    (eventType : String) (now : Int) : Bool × List (String × Int) :=
  match msg.id with
  | none => (false, cache)
  | some idObj =>
    match idObj.serialized with
    | none => (false, cache)
    | some mid =>
      if mid = "" then (false, cache)
      else
        let key := mid ++ "_" ++ eventType ++ "_" ++ toString (msg.ack.getD 0)
        if (cache.lookup key).isSome then (false, cache)
        else
          let c1 := mapSet cache key now
          let c2 :=
            if c1.length > 1000 then
              c1.filter (fun p => !(p.2 < now - 300000))
            else c1
          (true, c2)

/-- The dedup key derived for a message and event type. -/
def dedupKey (msg : DedupMsg) (eventType : String) : Option String :=
  match msg.id with
  | none => none
  | some idObj =>
    match idObj.serialized with
    | none => none
    | some mid =>
      if mid = "" then none
      else some (mid ++ "_" ++ eventType ++ "_" ++ toString (msg.ack.getD 0))

/-! ## Transformation engine (`templates/eventTransformers.js`)

Raw events pushed by the injected page script have shape
`(type, data, timestamp)` where `data` is the serialized message object.
`EventProcessor.processEvent` wraps each raw event into an envelope
`(id, timestamp, data := rawEvent)` before calling `isIgnored` /
`transform`.  All nested message fields are optional; absent and
JS-null fields are both `none`. -/

/-- An object carrying a `.user` field (`msg.from`, `msg.to`,
`id.participant`). -/
structure JUser where
  user : Option String
deriving DecidableEq

/-- The `id.remote` object (`_serialized` and `user` are read). -/
structure RemoteWid where
  serialized : Option String
  user : Option String
deriving DecidableEq

/-- The `msg.id` object as read by the transformers: fields `id`,
`_serialized` (here `serialized`), `remote`, `participant`, `fromMe`. -/
structure WId where
  id : Option String
  serialized : Option String
  remote : Option RemoteWid
  participant : Option JUser
  fromMe : Option Bool
deriving DecidableEq

/-- The `__raw.protocolMessageKey` object. -/
structure ProtoKey where
  id : Option String
deriving DecidableEq

/-- The `msg.__raw` backup object (fields read by the transformers;
`__raw.from` is modelled as `fromStr`). -/
structure RawBackup where
  mimetype : Option String
  subtype : Option String
  fromStr : Option String
  author : Option String
  ephemeralDuration : Option Int
  ephemeralSettingUser : Option String
  revokeTimestamp : Option Int
  protocolMessageKey : Option ProtoKey
  recipients : Option (List String)
deriving DecidableEq

/-- The serialized message object (`originalData` in the transformers;
`msg.from` is modelled as `fromU`, `msg.to` as `toU`, `msg.__raw` as
`raw`). -/
structure MsgData where
  type : Option String
  subtype : Option String
  body : Option String
  ack : Option Int
  id : Option WId
  fromU : Option JUser
  toU : Option JUser
  timestamp : Option Int
  raw : Option RawBackup
deriving DecidableEq

/-- A raw event as pushed to the in-page queue:
`(type, data: serializeMsg(msg), timestamp)`. -/
structure RawEvent where
  type : Option String
  data : Option MsgData
  timestamp : Option Int
deriving DecidableEq

/-- The `EventProcessor` envelope `(id, timestamp, data: rawEvent)`. -/
structure Envelope where
  id : Nat
  timestamp : String
  data : Option RawEvent
deriving DecidableEq

/-- The configured event-type vocabulary (defaults from
`_getDefaultEventTypes`). -/
structure EventTypes where
  STATUS_CREATED : String
  STATUS_RECEIVED : String
  STATUS_READ : String
  MESSAGE_SENT : String
  MESSAGE_DELIVERED : String
  MESSAGE_READ : String
  MESSAGE_PLAYED : String
  MESSAGE_CREATED : String
  MESSAGE_REVOKED : String
  DISAPPEARING_MODE_CHANGED : String
deriving DecidableEq

/-- One configured ignore rule: a type and an optional subtype list. -/
structure IgnoreRule where
  type : String
  subtypes : Option (List String)
deriving DecidableEq

/-- The configuration slice held by an `EventTransformers` instance. -/
structure TransformerConfig where
  eventTypes : EventTypes
  messageTypes : List String
  ignoredTypes : List IgnoreRule
  groupActions : List (String × String)
deriving DecidableEq

/-- `_getDefaultEventTypes()`. -/
def defaultEventTypes : EventTypes :=
  { STATUS_CREATED := "status_created"
    STATUS_RECEIVED := "status_received"
    STATUS_READ := "status_read"
    MESSAGE_SENT := "message_sent"
    MESSAGE_DELIVERED := "message_delivered"
    MESSAGE_READ := "message_read"
    MESSAGE_PLAYED := "message_played"
    MESSAGE_CREATED := "message_created"
    MESSAGE_REVOKED := "message_revoked"
    DISAPPEARING_MODE_CHANGED := "disappearing_mode_changed" }

/-- `_getDefaultMessageTypes()`. -/
def defaultMessageTypes : List String :=
  ["chat", "image", "video", "audio", "document", "sticker", "ptt",
   "ptv", "album", "gp2", "revoked", "notification_template"]

/-- `_getDefaultIgnoredTypes()`. -/
def defaultIgnoredTypes : List IgnoreRule :=
  [⟨"e2e_notification", some ["encrypt"]⟩, ⟨"ciphertext", none⟩]

/-- `_getDefaultGroupActions()`. -/
def defaultGroupActions : List (String × String) :=
  [("add", "member_added"), ("remove", "member_removed"),
   ("promote", "member_promoted"), ("demote", "member_demoted"),
   ("modify", "group_modified"), ("create", "group_created"),
   ("subject", "name_changed"), ("description", "description_changed"),
   ("picture", "picture_changed")]

/-- An `EventTransformers` instance built with all defaults (no
`eventTypes.json` overrides). -/
def defaultConfig : TransformerConfig :=
  ⟨defaultEventTypes, defaultMessageTypes, defaultIgnoredTypes, defaultGroupActions⟩

/-- `_isStatusEvent(event)`. -/
def isStatusEvent (env : Envelope) : Bool :=
  ((((env.data.bind (·.data)).bind (·.id)).bind (·.remote)).bind (·.serialized)
      == some "status@broadcast")
  || (((env.data.bind (·.data)).bind (·.fromU)).bind (·.user) == some "status")

/-- `_getEventTypeByAck(ack, isStatus)`: the ack-level lookup with the
JS `||` fallback (null for status, the creation state otherwise). -/
def getEventTypeByAck (et : EventTypes) (ack : Option Int) (isStatus : Bool) :
    Option String :=
  let mapped : Option String :=
    if isStatus then
      if ack = some 1 then some et.STATUS_CREATED
      else if ack = some 2 then some et.STATUS_RECEIVED
      else if ack = some 3 then some et.STATUS_READ
      else none
    else
      if ack = some 1 then some et.MESSAGE_SENT
      else if ack = some 2 then some et.MESSAGE_DELIVERED
      else if ack = some 3 then some et.MESSAGE_READ
      else if ack = some 4 then some et.MESSAGE_PLAYED
      else none
  jsOr mapped (if isStatus then none else some et.MESSAGE_CREATED)

/-- `_isGroupMessage(originalData)`. -/
def isGroupMessage (od : MsgData) : Bool :=
  optIncludes (od.fromU.bind (·.user)) "@g.us"
  || optIncludes ((od.id.bind (·.remote)).bind (·.user)) "@g.us"
  || optIncludes (od.raw.bind (·.fromStr)) "@g.us"

/-- The suffix strip of `_normalizeId`: one terminal `@c.us` or `@lid`
is removed. -/
def stripContactSuffix (s : String) : String :=
  if s.endsWith "@c.us" then s.dropRight 5
  else if s.endsWith "@lid" then s.dropRight 4
  else s

/-- `_normalizeId(id)`: null for a falsy input, else the stripped
string. -/
def normalizeId (o : Option String) : Option String :=
  if truthy o then o.map stripContactSuffix else none

/-- `_getMediaFormat(originalData)`. -/
def getMediaFormat (od : MsgData) : Option String :=
  let mimetype := od.raw.bind (·.mimetype)
  let isAV := truthy mimetype &&
    ((mimetype.getD "").startsWith "audio/" || (mimetype.getD "").startsWith "video/")
  let isText := (od.type == some "chat") || (!isAV && truthy od.body)
  jsOr mimetype (if isText then some "text" else none)

/-- The body of a normalized status event (`transformStatusEvent`). -/
structure StatusData where
  status_id : Option String
  type : String
  format : Option String
  status_author_number : Option String
  reader_number : Option String
  read_time : Option String
  fromMe : Bool
  body : Option String
deriving DecidableEq

/-- The body of a normalized chat-message event (`transformChatMessage`):
base fields plus the fields added by the special-type handlers (absent
keys are `none`). -/
structure ChatData where
  message_id : Option String
  type : Option String
  format : Option String
  from_number : Option String
  to_number : Option String
  isGroup : Bool
  group_id : Option String
  fromMe : Bool
  message_time : Option String
  body : Option String
  ephemeral_duration : Option Int
  setting_user : Option String
  notification_type : Option String
  revoke_timestamp : Option String
  revoked_by : Option String
  original_message_id : Option String
  group_action : Option String
  recipients : Option (List String)
  action_by : Option String
deriving DecidableEq

/-- The `data` payload of a normalized event. -/
inductive TData where
  | status (d : StatusData)
  | chat (d : ChatData)
deriving DecidableEq

/-- A normalized event as built by `_buildBaseTransformedEvent`. -/
structure TransformedEvent where
  internal_event_id : Nat
  timestamp : String
  data : TData
deriving DecidableEq

/-- A thrown JS exception reachable in the transformers:
`Date.prototype.toISOString` raises `RangeError` on an invalid date. -/
inductive JsError where
  | rangeError
deriving DecidableEq

/-- The message carried by the thrown error
(`RangeError: Invalid time value`). -/
def JsError.message : JsError → String
  | JsError.rangeError => "Invalid time value"

/-- Model of `new Date(tms).toISOString()`: a time value farther than
8,640,000,000,000,000 ms from the epoch yields an Invalid Date, whose
`toISOString` throws `RangeError`; valid time values are formatted by
the abstract environment formatter `iso`. -/
def jsDateToISOString (iso : Int → String) (tms : Int) : Except JsError String :=
  if tms.natAbs ≤ 8640000000000000 then Except.ok (iso tms)
  else Except.error JsError.rangeError

/-- The timestamp rule of `_buildBaseTransformedEvent`: a truthy message
timestamp (seconds) is converted through
`new Date(timestamp * 1000).toISOString()` — which throws for
out-of-range values — else the envelope timestamp is reused. -/
def buildTimestamp (iso : Int → String) (env : Envelope) (od : MsgData) :
    Except JsError String :=
  if truthyI od.timestamp then jsDateToISOString iso ((od.timestamp.getD 0) * 1000)
  else Except.ok env.timestamp

/-- `transformStatusEvent(event)`: declines unless `_isStatusEvent`, then
declines when the status ack level is unmapped (both before the build
step), else builds the status payload; the final
`_buildBaseTransformedEvent` call can throw, which propagates. -/
def transformStatusEvent (cfg : TransformerConfig) (iso : Int → String)
    (env : Envelope) : Except JsError (Option TransformedEvent) :=
  if isStatusEvent env then
    match env.data.bind (·.data) with
    | none => Except.ok none
    | some od =>
      if truthy (getEventTypeByAck cfg.eventTypes od.ack true) then
        match buildTimestamp iso env od with
        | Except.error e => Except.error e
        | Except.ok ts =>
          Except.ok (some
            { internal_event_id := env.id
              timestamp := ts
              data := TData.status
                { status_id := orNull (od.id.bind (·.id))
                  type := (getEventTypeByAck cfg.eventTypes od.ack true).getD ""
                  format := getMediaFormat od
                  status_author_number :=
                    jsOr ((od.id.bind (·.participant)).bind (·.user))
                      (jsOr (od.fromU.bind (·.user)) none)
                  reader_number := orNull (od.toU.bind (·.user))
                  read_time := orNull (od.timestamp.map toString)
                  fromMe := (od.id.bind (·.fromMe)).getD false
                  body :=
                    if truthy od.body ∧ od.type = some "chat" then od.body
                    else none } })
      else Except.ok none
  else Except.ok none

/-- The message-type gate of `transformChatMessage`:
`this.messageTypes.includes(originalData.type)`. -/
def typeInMessageTypes (mts : List String) (od : MsgData) : Bool :=
  match od.type with
  | some t => mts.contains t
  | none => false

/-- `_handleSpecialMessageTypes(originalData, transformedData)`: the
switch on `notification_template` / `revoked` / `gp2`. -/
def handleSpecialMessageTypes (cfg : TransformerConfig) (od : MsgData)
    (d : ChatData) : ChatData :=
  if od.type = some "notification_template" then
    let subtype := od.raw.bind (·.subtype)
    if subtype = some "disappearing_mode" then
      { d with
        type := some cfg.eventTypes.DISAPPEARING_MODE_CHANGED
        ephemeral_duration := orNullI (od.raw.bind (·.ephemeralDuration))
        setting_user := normalizeId (od.raw.bind (·.ephemeralSettingUser)) }
    else
      { d with notification_type := jsOr subtype (some "unknown") }
  else if od.type = some "revoked" then
    { d with
      type := some cfg.eventTypes.MESSAGE_REVOKED
      revoke_timestamp := orNull ((od.raw.bind (·.revokeTimestamp)).map toString)
      revoked_by :=
        normalizeId
          (jsOr ((od.id.bind (·.participant)).bind (·.user)) (od.raw.bind (·.author)))
      original_message_id := orNull ((od.raw.bind (·.protocolMessageKey)).bind (·.id)) }
  else if od.type = some "gp2" then
    let subtype := od.raw.bind (·.subtype)
    let recips := (od.raw.bind (·.recipients)).getD []
    { d with
      group_action :=
        jsOr (subtype.bind (fun s => cfg.groupActions.lookup s))
          (jsOr subtype (some "unknown"))
      recipients :=
        some ((recips.map (fun r => normalizeId (some r))).filterMap
          (fun o => if truthy o then o else none))
      action_by :=
        normalizeId
          (jsOr ((od.id.bind (·.participant)).bind (·.user)) (od.raw.bind (·.author))) }
  else d

/-- `transformChatMessage(event)`: declines when the message data is
absent or its type is not configured, else builds the chat payload,
applies the special-type handlers, and conditionally copies the body;
the final `_buildBaseTransformedEvent` call can throw, which
propagates. -/
def transformChatMessage (cfg : TransformerConfig) (iso : Int → String)
    (env : Envelope) : Except JsError (Option TransformedEvent) :=
  match env.data.bind (·.data) with
  | none => Except.ok none
  | some od =>
    if typeInMessageTypes cfg.messageTypes od then
      let messageType := getEventTypeByAck cfg.eventTypes od.ack false
      let isGroup := isGroupMessage od
      let base : ChatData :=
        { message_id := orNull (od.id.bind (·.id))
          type := messageType
          format := jsOr (od.raw.bind (·.mimetype)) od.type
          from_number :=
            if isGroup then
              jsOr ((od.id.bind (·.participant)).bind (·.user))
                (jsOr (normalizeId (od.raw.bind (·.author))) (od.fromU.bind (·.user)))
            else orNull (od.fromU.bind (·.user))
          to_number := orNull (od.toU.bind (·.user))
          isGroup := isGroup
          group_id :=
            if isGroup then
              jsOr (od.fromU.bind (·.user)) (orNull ((od.id.bind (·.remote)).bind (·.user)))
            else none
          fromMe := (od.id.bind (·.fromMe)).getD false
          message_time := orNull (od.timestamp.map toString)
          body := none
          ephemeral_duration := none
          setting_user := none
          notification_type := none
          revoke_timestamp := none
          revoked_by := none
          original_message_id := none
          group_action := none
          recipients := none
          action_by := none }
      let afterSpecial := handleSpecialMessageTypes cfg od base
      let withBody :=
        if truthy od.body ∧ od.type = some "chat" then
          { afterSpecial with body := od.body }
        else afterSpecial
      match buildTimestamp iso env od with
      | Except.error e => Except.error e
      | Except.ok ts =>
        Except.ok (some
          { internal_event_id := env.id
            timestamp := ts
            data := TData.chat withBody })
    else Except.ok none

/-- The `(type, subtype)` view inspected by `shouldIgnoreEvent`:
`event.data?.data || event.data`, with the subtype fallback
`eventData?.subtype || eventData?.__raw?.subtype`.  A bare raw event has
no subtype or `__raw` key. -/
def ignoreView (env : Envelope) : Option String × Option String :=
  match env.data with
  | none => (none, none)
  | some raw =>
    match raw.data with
    | some md => (md.type, jsOr md.subtype (md.raw.bind (·.subtype)))
    | none => (raw.type, none)

/-- `shouldIgnoreEvent(event)` (also exposed as `isIgnored`): some rule
matches the viewed type and, when it lists subtypes, the viewed
subtype. -/
def shouldIgnoreEvent (rules : List IgnoreRule) (env : Envelope) : Bool :=
  let v := ignoreView env
  rules.any (fun r =>
    (match v.1 with
     | some t => decide (t = r.type)
     | none => false)
    &&
    (match r.subtypes with
     | some subs =>
       match v.2 with
       | some s => subs.contains s
       | none => false
     | none => true))

/-- The three possible results of `transform`: JS `null` (filtered), a
normalized event, or the original envelope passed through. -/
inductive TransformResult where
  | filtered
  | normalized (t : TransformedEvent)
  | passthrough (e : Envelope)
deriving DecidableEq

/-- `transform(event)`: ignore check, then the status mapper, then the
chat mapper, else passthrough of the very same envelope; an exception
thrown inside a mapper escapes `transform` uncaught. -/
def transform (cfg : TransformerConfig) (iso : Int → String)
    (env : Envelope) : Except JsError TransformResult :=
  if shouldIgnoreEvent cfg.ignoredTypes env then Except.ok TransformResult.filtered
  else
    match transformStatusEvent cfg iso env with
    | Except.error e => Except.error e
    | Except.ok (some t) => Except.ok (TransformResult.normalized t)
    | Except.ok none =>
      match transformChatMessage cfg iso env with
      | Except.error e => Except.error e
      | Except.ok (some t) => Except.ok (TransformResult.normalized t)
      | Except.ok none => Except.ok (TransformResult.passthrough env)

/-! ## Per-event processing decision (`src/EventProcessor.js`) -/

/-- The payload handed to the publish step: a normalized event or the
passthrough envelope. -/
inductive PubPayload where
  | norm (t : TransformedEvent)
  | env (e : Envelope)
deriving DecidableEq

/-- The result object of `EventProcessor.processEvent`. -/
inductive ProcResult where
  | skip (reason : String)
  | ignoreEv (eventData : Envelope) (eventType : Option String)
  | filteredEv (eventType : Option String)
  | publishEv (payload : PubPayload) (eventType : Option String) (wasTransformed : Bool)
  | errorEv (msg : String) (eventType : Option String)
deriving DecidableEq

/-- `EventProcessor.processEvent(rawEvent)` with the ignore predicate and
the transform function abstracted, the envelope id and ISO timestamp
passed in for `Date.now()` / `new Date().toISOString()`, and `avail`
standing for a successfully loaded `EventTransformers` module.  The
ignore check runs strictly before the transform function; an exception
thrown by the transform function lands in the surrounding catch, which
returns the error action with `error.message` and
`rawEvent?.type || 'unknown'`. -/
def processEventWith (ignoreQ : Envelope → Bool)
    (transformFn : Envelope → Except JsError TransformResult) (avail : Bool)
    (envId : Nat) (nowIso : String) (raw : RawEvent) : ProcResult :=
  let ev : Envelope := ⟨envId, nowIso, some raw⟩
  if !avail then ProcResult.skip "transformers_unavailable"
  else if ignoreQ ev then ProcResult.ignoreEv ev raw.type
  else
    match transformFn ev with
    | Except.error e =>
      ProcResult.errorEv (JsError.message e) (jsOr raw.type (some "unknown"))
    | Except.ok TransformResult.filtered => ProcResult.filteredEv raw.type
    | Except.ok (TransformResult.normalized t) =>
      ProcResult.publishEv (PubPayload.norm t) raw.type true
    | Except.ok (TransformResult.passthrough e) =>
      ProcResult.publishEv (PubPayload.env e) raw.type (decide (e ≠ ev))

/-- `EventProcessor.processEvent` with the concrete transformers. -/
def processEvent (cfg : TransformerConfig) (iso : Int → String) (avail : Bool)
    (envId : Nat) (nowIso : String) (raw : RawEvent) : ProcResult :=
  processEventWith (shouldIgnoreEvent cfg.ignoredTypes) (transform cfg iso)
    avail envId nowIso raw

/-! ## Stats (`src/StatsCollector.js`) and routing (`src/NATSManager.js`) -/

/-- The event-statistics record (`this.eventStats`); `byType` is keyed by
the raw event type (possibly undefined). -/
structure EventStats where
  total : Nat
  errors : Nat
  filtered : Nat
  ignored : Nat
  byType : List (Option String × Nat)
deriving DecidableEq

/-- Bump a per-type counter. -/
def bumpType (l : List (Option String × Nat)) (t : Option String) :
    List (Option String × Nat) :=
  if (l.lookup t).isSome then
    l.map (fun p => if p.1 = t then (t, p.2 + 1) else p)
  else l ++ [(t, 1)]

/-- `StatsCollector.updateEventStats(eventType, action)`: the total and
per-type counters always advance; the error / filtered / ignored counter
advances per the action tag. -/
def updateEventStats (s : EventStats) (eventType : Option String)
    (action : String) : EventStats :=
  { total := s.total + 1
    errors := if action = "error" then s.errors + 1 else s.errors
    filtered := if action = "filtered" then s.filtered + 1 else s.filtered
    ignored := if action = "ignored" then s.ignored + 1 else s.ignored
    byType := bumpType s.byType eventType }

/-- `NATSManager.isContactEvent` list. -/
def contactEventTypes : List String :=
  ["contact_add", "contact_change", "contact_remove", "contacts_initial"]

/-- `NATSManager.isPresenceEvent` list. -/
def presenceEventTypes : List String :=
  ["presence_add", "presence_change", "presence_remove", "presence_initial"]

/-- Logical publish destinations (`config.nats` subjects). -/
inductive Dest where
  | main
  | contact
  | presence
  | ignoredDest
deriving DecidableEq

/-- `NATSManager.determineSubject(eventType)`. -/
def determineSubject (eventType : Option String) : Dest :=
  match eventType with
  | some t =>
    if contactEventTypes.contains t then Dest.contact
    else if presenceEventTypes.contains t then Dest.presence
    else Dest.main
  | none => Dest.main

/-- A publish request handed to the NATS manager. -/
structure PubRequest where
  dest : Dest
  payload : PubPayload
deriving DecidableEq

/-! ## Bridge orchestration (`index.js`) -/

/-- Outcome of one NATS publish attempt: success, or a thrown error. -/
inductive PubOutcome where
  | ok
  | err (msg : String)
deriving DecidableEq

/-- One batch element: the envelope id and ISO timestamp minted for the
event, the raw event itself, and how its publish attempt (if any)
fares. -/
structure BatchItem where
  envId : Nat
  nowIso : String
  event : RawEvent
  pub : PubOutcome
deriving DecidableEq

/-- `WhatsAppBridge.processEvent(event)`: the first stats update on
receipt, the switch on the processing action, and the catch-all that
records a publish throw as an error outcome.  Returns the new stats and
the publish request that was issued, if any. -/
def bridgeProcessEvent (cfg : TransformerConfig) (iso : Int → String)
    (avail : Bool) (stats : EventStats) (it : BatchItem) :
    EventStats × Option PubRequest :=
  let s1 := updateEventStats stats it.event.type "processed"
  match processEvent cfg iso avail it.envId it.nowIso it.event with
  | ProcResult.publishEv payload et _ =>
    let req := some (PubRequest.mk (determineSubject et) payload)
    match it.pub with
    | PubOutcome.ok => (s1, req)
    | PubOutcome.err _ => (updateEventStats s1 it.event.type "error", req)
  | ProcResult.ignoreEv payloadEnv et =>
    let req := some (PubRequest.mk Dest.ignoredDest (PubPayload.env payloadEnv))
    match it.pub with
    | PubOutcome.ok => (updateEventStats s1 et "ignored", req)
    | PubOutcome.err _ => (updateEventStats s1 it.event.type "error", req)
  | ProcResult.filteredEv et => (updateEventStats s1 et "filtered", none)
  | ProcResult.skip _ => (s1, none)
  | ProcResult.errorEv _ et => (updateEventStats s1 et "error", none)

/-- Sequential processing of one polled batch (`for (const event of
events) await this.processEvent(event)`), threading the stats. -/
def processBatch (cfg : TransformerConfig) (iso : Int → String) (avail : Bool)
    (stats : EventStats) (items : List BatchItem) : EventStats :=
  items.foldl (fun s it => (bridgeProcessEvent cfg iso avail s it).1) stats

/-- Classification of one event's pipeline outcome as observed by the
stats (a publish throw on either publish path lands in the catch and is
an errored outcome). -/
inductive Outcome where
  | published
  | skipped
  | ignoredO
  | filteredO
  | erroredO
deriving DecidableEq

/-- The outcome of one batch item. -/
def outcomeOf (cfg : TransformerConfig) (iso : Int → String) (avail : Bool)
    (it : BatchItem) : Outcome :=
  match processEvent cfg iso avail it.envId it.nowIso it.event, it.pub with
  | ProcResult.publishEv _ _ _, PubOutcome.ok => Outcome.published
  | ProcResult.publishEv _ _ _, PubOutcome.err _ => Outcome.erroredO
  | ProcResult.ignoreEv _ _, PubOutcome.ok => Outcome.ignoredO
  | ProcResult.ignoreEv _ _, PubOutcome.err _ => Outcome.erroredO
  | ProcResult.filteredEv _, _ => Outcome.filteredO
  | ProcResult.skip _, _ => Outcome.skipped
  | ProcResult.errorEv _ _, _ => Outcome.erroredO

/-- How many times one event's outcome bumps the total event counter. -/
def outcomeWeight : Outcome → Nat
  | Outcome.published => 1
  | Outcome.skipped => 1
  | Outcome.ignoredO => 2
  | Outcome.filteredO => 2
  | Outcome.erroredO => 2

/-! ## Polling loop (`index.js`, `startEventPolling`) -/

/-- Scheduler state: the bridge running flag, the consecutive-failure
counter `pollingRetries`, and the stats. -/
structure BridgeState where
  isRunning : Bool
  pollingRetries : Nat
  stats : EventStats
deriving DecidableEq

/-- What one `pollEvents` invocation observes from the browser: a batch,
or a thrown poll error classified fatal (session/frame/protocol
signatures) or transient. -/
inductive PollObs where
  | success (items : List BatchItem)
  | failure (fatal : Bool)
deriving DecidableEq

/-- What the tick leaves scheduled: the next regular poll, a retry after
the retry delay, or nothing (scheduler stopped). -/
inductive NextPoll where
  | interval
  | retryDelay
deriving DecidableEq

/-- One `pollEvents` tick: bail out when not running; stop when the
browser is dead; on a successful batch process every event, zero the
retry counter and schedule the next poll; on a fatal error stop; on a
transient error bump the counter and either retry or, at the configured
maximum, stop for good. -/
def pollTick (cfg : TransformerConfig) (iso : Int → String) (avail : Bool)
    (maxRetries : Nat) (st : BridgeState) (browserAlive : Bool)
    (obs : PollObs) : BridgeState × Option NextPoll :=
  if !st.isRunning then (st, none)
  else if !browserAlive then ({ st with isRunning := false }, none)
  else
    match obs with
    | PollObs.success items =>
      let st' : BridgeState :=
        { st with stats := processBatch cfg iso avail st.stats items
                  pollingRetries := 0 }
      if st'.isRunning then (st', some NextPoll.interval) else (st', none)
    | PollObs.failure fatal =>
      let r := st.pollingRetries + 1
      if fatal then ({ st with isRunning := false, pollingRetries := r }, none)
      else if maxRetries ≤ r then
        ({ st with isRunning := false, pollingRetries := r }, none)
      else ({ st with pollingRetries := r }, some NextPoll.retryDelay)

/-! ## Theorems -/

/-- Appending a fresh key to an association list makes it found. -/
theorem lookupAppendSingle (l : List (String × Int)) (k : String) (v : Int)
    (h : l.lookup k = none) : (l ++ [(k, v)]).lookup k = some v := by
  induction l with
  | nil => simp [List.lookup]
  | cons a t ih =>
    cases a with
    | mk a1 a2 =>
      cases hk : (k == a1) with
      | true => simp [List.lookup, hk] at h
      | false =>
        simp only [List.lookup, hk] at h
        simp only [List.cons_append, List.lookup, hk]
        exact ih h

/-- Filtering preserves the absence of a key. -/
theorem lookupFilterNone (l : List (String × Int)) (k : String)
    (p : String × Int → Bool) (h : l.lookup k = none) :
    (l.filter p).lookup k = none := by
  induction l with
  | nil => simp
  | cons a t ih =>
    cases a with
    | mk a1 a2 =>
      cases hk : (k == a1) with
      | true => simp [List.lookup, hk] at h
      | false =>
        simp only [List.lookup, hk] at h
        by_cases hp : p (a1, a2) = true
        · rw [List.filter_cons, if_pos hp]
          simp only [List.lookup, hk]
          exact ih h
        · rw [List.filter_cons, if_neg hp]
          exact ih h

/-- C1 counterexample: a message event without an id (and one whose id has
no `_serialized` field) is REJECTED by `shouldProcessMessage` — the code
returns `false`, while the claim demands `true` (fail-open). -/
theorem c1_counterexample :
    (shouldProcessMessage [] ⟨none, none⟩ "create" 0).1 = false
    ∧ (shouldProcessMessage [] ⟨some ⟨none⟩, none⟩ "create" 0).1 = false := by
  exact ⟨rfl, rfl⟩

/-- C1 amended: a message event lacking an extractable entity identifier
(no id object, or no serialized id) is never processed:
`shouldProcessMessage` returns `false` and leaves the cache unchanged
(fail-closed), regardless of how many times the event is seen. -/
theorem c1_amended (cache : List (String × Int)) (msg : DedupMsg)
    (eventType : String) (now : Int)
    (h : msg.id = none ∨ ∃ idObj, msg.id = some idObj ∧ idObj.serialized = none) :
    shouldProcessMessage cache msg eventType now = (false, cache) := by
  rcases h with h | ⟨idObj, h1, h2⟩
  · simp [shouldProcessMessage, h]
  · simp [shouldProcessMessage, h1, h2]

/-- C1 amended, concrete witness: an id-less event against a non-empty
cache is suppressed with the cache untouched. -/
theorem c1_amended_witness :
    shouldProcessMessage [("x_create_0", (5 : Int))] ⟨none, some 3⟩ "create" 999
      = (false, [("x_create_0", 5)]) :=
  c1_amended _ _ _ _ (Or.inl rfl)

/-- C2 counterexample: the same key seen again 600000 ms after its
recording — a gap exceeding the 300000 ms retention window — is STILL
suppressed (`false`) and the stored timestamp is not refreshed: presence
in the cache suppresses regardless of age, contradicting the claim that
a gap beyond the window is processed. -/
theorem c2_counterexample :
    shouldProcessMessage [("m1_create_0", (0 : Int))] ⟨some ⟨some "m1"⟩, none⟩
        "create" 600000
      = (false, [("m1_create_0", 0)]) := by
  rfl

/-- C2 amended: the second of two same-key events is processed exactly
when its key is ABSENT from the cache (then it is recorded at `now`);
while the key is present — no matter how much time has passed, even
beyond the retention window — it is suppressed without updating the
stored timestamp (the cache is returned unchanged).  Absent keys arise
only from the size-triggered sweep, never from mere expiry. -/
theorem c2_amended (cache : List (String × Int)) (msg : DedupMsg)
    (eventType : String) (now : Int) (key : String)
    (hkey : dedupKey msg eventType = some key) :
    ((cache.lookup key).isSome →
      shouldProcessMessage cache msg eventType now = (false, cache))
    ∧ (cache.lookup key = none →
      (shouldProcessMessage cache msg eventType now).1 = true
      ∧ ((shouldProcessMessage cache msg eventType now).2.lookup key) = some now) := by
  cases hmsg : msg.id with
  | none => simp [dedupKey, hmsg] at hkey
  | some idObj =>
    cases hser : idObj.serialized with
    | none => simp [dedupKey, hmsg, hser] at hkey
    | some mid =>
      by_cases hmid : mid = ""
      · simp [dedupKey, hmsg, hser, hmid] at hkey
      · simp only [dedupKey, hmsg, hser, if_neg hmid, Option.some.injEq] at hkey
        subst hkey
        constructor
        · intro hhit
          simp [shouldProcessMessage, hmsg, hser, hmid, hhit]
        · intro hmiss
          have hmiss' : ((cache.lookup
              (mid ++ "_" ++ eventType ++ "_" ++ toString (msg.ack.getD 0))).isSome) = false := by
            simp [hmiss]
          simp only [shouldProcessMessage, hmsg, hser, if_neg hmid, hmiss',
            Bool.false_eq_true, if_false, mapSet, if_neg (by simp [hmiss'] : ¬ ((cache.lookup (mid ++ "_" ++ eventType ++ "_" ++ toString (msg.ack.getD 0))).isSome = true))]
          refine ⟨by trivial, ?_⟩
          split
          · rw [List.filter_append]
            have hp : (fun p : String × Int => !(p.2 < now - 300000))
                ((mid ++ "_" ++ eventType ++ "_" ++ toString (msg.ack.getD 0)), now) = true := by
              simp
            rw [List.filter_cons, if_pos hp]
            simp only [List.filter_nil]
            exact lookupAppendSingle _ _ _ (lookupFilterNone _ _ _ hmiss)
          · exact lookupAppendSingle _ _ _ hmiss

/-- C2 amended, concrete witness: a cache hit suppresses and leaves the
cache unchanged; a fresh key is processed and recorded. -/
theorem c2_amended_witness :
    (shouldProcessMessage [("m1_create_0", (0 : Int))] ⟨some ⟨some "m1"⟩, none⟩
        "create" 600000 = (false, [("m1_create_0", 0)]))
    ∧ ((shouldProcessMessage [] ⟨some ⟨some "m1"⟩, none⟩ "create" 7).1 = true
      ∧ ((shouldProcessMessage [] ⟨some ⟨some "m1"⟩, none⟩ "create" 7).2.lookup
          "m1_create_0") = some 7) := by
  constructor
  · exact (c2_amended [("m1_create_0", (0 : Int))] ⟨some ⟨some "m1"⟩, none⟩
      "create" 600000 "m1_create_0" rfl).1 (by decide)
  · exact (c2_amended [] ⟨some ⟨some "m1"⟩, none⟩ "create" 7 "m1_create_0" rfl).2 rfl

/-- The dedup key generated for the i-th C5 probe message (`i+1` copies
of `'a'`, event type `create`, ack defaulted to 0). -/
def c5Key (i : Nat) : String :=
  String.mk (List.replicate (i + 1) 'a') ++ "_" ++ "create" ++ "_" ++ "0"

/-- The i-th C5 probe message: a valid serialized id of `i+1` copies of
`'a'`, no ack. -/
def c5Msg (i : Nat) : DedupMsg :=
  ⟨some ⟨some (String.mk (List.replicate (i + 1) 'a'))⟩, none⟩

/-- Feeding the i-th probe message to the dedup filter at time 0. -/
def c5Insert (cache : List (String × Int)) (i : Nat) : List (String × Int) :=
  (shouldProcessMessage cache (c5Msg i) "create" 0).2

/-- The dedup cache after the first n distinct probe messages, all seen
at time 0 (within the five-minute horizon). -/
def c5Cache (n : Nat) : List (String × Int) :=
  (List.range n).foldl c5Insert []

/-- Length of a packed character list. -/
theorem stringMkLength (l : List Char) : (String.mk l).length = l.length := rfl

/-- Each C5 key has length `i + 10`. -/
theorem c5KeyLength (i : Nat) : (c5Key i).length = i + 10 := by
  show (String.mk (List.replicate (i + 1) 'a') ++ "_" ++ "create" ++ "_" ++ "0").length
      = i + 10
  rw [String.length_append, String.length_append, String.length_append,
    String.length_append, stringMkLength, List.length_replicate]
  rw [show ("_" : String).length = 1 from rfl, show ("create" : String).length = 6 from rfl,
    show ("0" : String).length = 1 from rfl]

/-- Distinct indices give distinct C5 keys. -/
theorem c5KeyInj {i j : Nat} (h : c5Key i = c5Key j) : i = j := by
  have h2 := congrArg String.length h
  rw [c5KeyLength, c5KeyLength] at h2
  omega

/-- A C5 key indexed outside a list of indices is not found among the
corresponding cache entries. -/
theorem c5LookupNone (l : List Nat) (n : Nat) (h : ∀ i ∈ l, i ≠ n) :
    ((l.map (fun i => (c5Key i, (0 : Int)))).lookup (c5Key n)) = none := by
  induction l with
  | nil => rfl
  | cons a t ih =>
    have ha : (c5Key n == c5Key a) = false := by
      cases hb : (c5Key n == c5Key a) with
      | true => exact absurd (c5KeyInj (eq_of_beq hb)).symm (h a (by simp))
      | false => rfl
    simp only [List.map_cons, List.lookup, ha]
    exact ih (fun i hi => h i (by simp [hi]))

/-- A probe id is never the empty string. -/
theorem c5MidNe (i : Nat) : String.mk (List.replicate (i + 1) 'a') ≠ "" := by
  intro h
  have : List.replicate (i + 1) 'a' = ([] : List Char) := by
    have h2 := congrArg String.data h
    simp at h2
  simp [List.replicate] at this

/-- After n distinct probe insertions at time 0 the cache holds exactly
the n keys, each at timestamp 0: the size-ceiling sweep removes nothing
because no entry is older than the five-minute horizon. -/
theorem c5CacheEq (n : Nat) :
    c5Cache n = (List.range n).map (fun i => (c5Key i, (0 : Int))) := by
  induction n with
  | zero => rfl
  | succ n ih =>
    rw [c5Cache, List.range_succ, List.foldl_append]
    rw [show List.foldl c5Insert [] (List.range n)
        = List.map (fun i => (c5Key i, (0 : Int))) (List.range n) from ih]
    simp only [List.foldl_cons, List.foldl_nil]
    have hfresh : (((List.range n).map (fun i => (c5Key i, (0 : Int)))).lookup
        (c5Key n)) = none :=
      c5LookupNone _ _ (fun i hi => Nat.ne_of_lt (List.mem_range.mp hi))
    have hfresh' : (((List.range n).map (fun i => (c5Key i, (0 : Int)))).lookup
        (c5Key n)).isSome = false := by rw [hfresh]; rfl
    show (shouldProcessMessage _ (c5Msg n) "create" 0).2 = _
    simp only [shouldProcessMessage, c5Msg]
    rw [if_neg (c5MidNe n)]
    have hkey : (String.mk (List.replicate (n + 1) 'a') ++ "_" ++ "create" ++ "_"
        ++ toString (((none : Option Int)).getD 0)) = c5Key n := rfl
    rw [hkey]
    rw [if_neg (by rw [hfresh']; exact Bool.false_ne_true)]
    simp only [mapSet, hfresh', Bool.false_eq_true, if_false]
    have hall : ((List.range n).map (fun i => (c5Key i, (0 : Int)))
          ++ [(c5Key n, (0 : Int))]).filter (fun p => !(p.2 < 0 - 300000))
        = (List.range n).map (fun i => (c5Key i, (0 : Int))) ++ [(c5Key n, (0 : Int))] := by
      rw [List.filter_eq_self]
      intro p hp
      have hz : p.2 = 0 := by
        rcases List.mem_append.mp hp with h1 | h1
        · rcases List.mem_map.mp h1 with ⟨i, _, hi⟩
          rw [← hi]
        · simp at h1
          rw [h1]
      rw [hz]
      simp
    rw [hall, ite_self, List.map_append]
    rfl

/-- C5 counterexample: inserting 1002 distinct keys, all within the
five-minute horizon, leaves 1002 entries in the cache — the size-ceiling
sweep removes only entries older than the horizon, so the population
exceeds the claimed bound of ceiling (1000) plus one pending insert. -/
theorem c5_counterexample :
    (c5Cache 1002).length = 1002 ∧ 1000 + 1 < (c5Cache 1002).length := by
  have h : (c5Cache 1002).length = 1002 := by
    rw [c5CacheEq, List.length_map, List.length_range]
  exact ⟨h, by omega⟩

/-- C5 amended: a processed insertion keeps the cache within the 1000
ceiling, or else (the sweep having run) every surviving entry is within
the five-minute horizon; the population is NOT in general bounded by
ceiling plus one pending insert. -/
theorem c5_amended (cache : List (String × Int)) (msg : DedupMsg)
    (eventType : String) (now : Int)
    (h : (shouldProcessMessage cache msg eventType now).1 = true) :
    (shouldProcessMessage cache msg eventType now).2.length ≤ 1000
    ∨ ∀ p ∈ (shouldProcessMessage cache msg eventType now).2, now - 300000 ≤ p.2 := by
  cases hmsg : msg.id with
  | none => simp [shouldProcessMessage, hmsg] at h
  | some idObj =>
    cases hser : idObj.serialized with
    | none => simp [shouldProcessMessage, hmsg, hser] at h
    | some mid =>
      by_cases hmid : mid = ""
      · simp [shouldProcessMessage, hmsg, hser, hmid] at h
      · by_cases hhit : ((cache.lookup
            (mid ++ "_" ++ eventType ++ "_" ++ toString (msg.ack.getD 0))).isSome) = true
        · simp [shouldProcessMessage, hmsg, hser, hmid, hhit] at h
        · simp only [shouldProcessMessage, hmsg, hser, if_neg hmid, if_neg hhit]
          split
          · right
            intro p hp
            have := (List.mem_filter.mp hp).2
            simp at this
            omega
          · left
            next hle => omega

/-- C5 amended, concrete witness: a processed insertion into the empty
cache stays within the ceiling. -/
theorem c5_amended_witness :
    (shouldProcessMessage [] ⟨some ⟨some "m"⟩, none⟩ "create" 0).2.length ≤ 1000
    ∨ ∀ p ∈ (shouldProcessMessage [] ⟨some ⟨some "m"⟩, none⟩ "create" 0).2,
        (0 : Int) - 300000 ≤ p.2 :=
  c5_amended [] ⟨some ⟨some "m"⟩, none⟩ "create" 0 rfl

/-- C3: an event matching a configured ignore rule is routed to the
Ignored outcome carrying the original envelope verbatim, before and
independently of the transform step (the result is the same for EVERY
transform function), and the bridge publishes exactly that envelope to
the ignored destination. -/
theorem c3_ignore_before_transform
    (rules : List IgnoreRule) (tf : Envelope → Except JsError TransformResult)
    (envId : Nat) (nowIso : String) (raw : RawEvent)
    (cfg : TransformerConfig) (iso : Int → String) (stats : EventStats)
    (it : BatchItem) :
    (shouldIgnoreEvent rules ⟨envId, nowIso, some raw⟩ = true →
      processEventWith (shouldIgnoreEvent rules) tf true envId nowIso raw
        = ProcResult.ignoreEv ⟨envId, nowIso, some raw⟩ raw.type)
    ∧ (shouldIgnoreEvent cfg.ignoredTypes ⟨it.envId, it.nowIso, some it.event⟩ = true →
      (bridgeProcessEvent cfg iso true stats it).2
        = some ⟨Dest.ignoredDest, PubPayload.env ⟨it.envId, it.nowIso, some it.event⟩⟩) := by
  constructor
  · intro h
    simp [processEventWith, h]
  · intro h
    have h1 : processEvent cfg iso true it.envId it.nowIso it.event
        = ProcResult.ignoreEv ⟨it.envId, it.nowIso, some it.event⟩ it.event.type := by
      simp [processEvent, processEventWith, h]
    simp only [bridgeProcessEvent, h1]
    cases it.pub <;> rfl

/-- Concrete ciphertext message for the C3 witness. -/
def c3Msg : MsgData := ⟨some "ciphertext", none, none, none, none, none, none, none, none⟩

/-- Concrete raw event matching the `ciphertext` ignore rule. -/
def c3Raw : RawEvent := ⟨some "message_create", some c3Msg, none⟩

/-- Concrete batch item for the C3 witness. -/
def c3Item : BatchItem := ⟨1, "t0", c3Raw, PubOutcome.ok⟩

/-- Zeroed stats for the C3 witness. -/
def c3Stats : EventStats := ⟨0, 0, 0, 0, []⟩

/-- C3 witness: the default `ciphertext` rule sends the event to the
Ignored outcome with the envelope preserved, and the bridge publishes it
to the ignored destination. -/
theorem c3_witness :
    (processEventWith (shouldIgnoreEvent defaultConfig.ignoredTypes)
        (transform defaultConfig toString) true 1 "t0" c3Raw
      = ProcResult.ignoreEv ⟨1, "t0", some c3Raw⟩ c3Raw.type)
    ∧ ((bridgeProcessEvent defaultConfig toString true c3Stats c3Item).2
      = some ⟨Dest.ignoredDest, PubPayload.env ⟨1, "t0", some c3Raw⟩⟩) := by
  have h := c3_ignore_before_transform defaultConfig.ignoredTypes
    (transform defaultConfig toString) 1 "t0" c3Raw defaultConfig toString c3Stats c3Item
  exact ⟨h.1 (by decide), h.2 (by decide)⟩

/-- C6: an event that is not ignored, not a status event, and whose
message type is not configured is passed through unchanged by
`transform`, and feeding the passthrough output back through `transform`
yields the same output (idempotence on the passthrough path). -/
theorem c6_passthrough_idempotent (cfg : TransformerConfig) (iso : Int → String)
    (env : Envelope)
    (hIgn : shouldIgnoreEvent cfg.ignoredTypes env = false)
    (hSt : isStatusEvent env = false)
    (hTy : ∀ md, env.data.bind (·.data) = some md →
      typeInMessageTypes cfg.messageTypes md = false) :
    transform cfg iso env = Except.ok (TransformResult.passthrough env)
    ∧ ∀ e, transform cfg iso env = Except.ok (TransformResult.passthrough e) →
        transform cfg iso e = Except.ok (TransformResult.passthrough e) := by
  have hs : transformStatusEvent cfg iso env = Except.ok none := by
    simp [transformStatusEvent, hSt]
  have hc : transformChatMessage cfg iso env = Except.ok none := by
    cases hd : env.data.bind (·.data) with
    | none => simp [transformChatMessage, hd]
    | some md => simp [transformChatMessage, hd, hTy md hd]
  have ht : transform cfg iso env = Except.ok (TransformResult.passthrough env) := by
    simp [transform, hIgn, hs, hc]
  refine ⟨ht, ?_⟩
  intro e he
  rw [ht] at he
  injection he with h2
  injection h2 with h3
  subst h3
  exact ht

/-- Concrete unmatched event (a connection-state record) for the C6
witness. -/
def c6Env : Envelope := ⟨3, "iso1", some ⟨some "connection_state", none, none⟩⟩

/-- C6 witness: the connection-state event passes through unchanged. -/
theorem c6_witness :
    transform defaultConfig toString c6Env
      = Except.ok (TransformResult.passthrough c6Env) :=
  (c6_passthrough_idempotent defaultConfig toString c6Env (by decide) rfl
    (fun _ h => Option.noConfusion h)).1

/-- A truthy in-range timestamp (or no truthy timestamp at all) makes
the build step succeed. -/
theorem buildNoThrow (iso : Int → String) (env : Envelope) (od : MsgData)
    (h : truthyI od.timestamp = true →
      ((od.timestamp.getD 0) * 1000).natAbs ≤ 8640000000000000) :
    ∃ ts, buildTimestamp iso env od = Except.ok ts := by
  unfold buildTimestamp jsDateToISOString
  by_cases htr : truthyI od.timestamp = true
  · rw [if_pos htr, if_pos (h htr)]
    exact ⟨_, rfl⟩
  · rw [if_neg htr]
    exact ⟨_, rfl⟩

/-- The status mapper can only throw through the build step. -/
theorem statusNoThrow (cfg : TransformerConfig) (iso : Int → String) (env : Envelope)
    (hb : ∀ md, env.data.bind (·.data) = some md →
      ∃ ts, buildTimestamp iso env md = Except.ok ts) :
    ∀ e, transformStatusEvent cfg iso env ≠ Except.error e := by
  intro e
  by_cases hst : isStatusEvent env = true
  · cases hd : env.data.bind (·.data) with
    | none => simp [transformStatusEvent, hst, hd]
    | some od =>
      obtain ⟨ts, hts'⟩ := hb od hd
      by_cases het : truthy (getEventTypeByAck cfg.eventTypes od.ack true) = true
      · simp [transformStatusEvent, hst, hd, het, hts']
      · simp [transformStatusEvent, hst, hd, het]
  · have hst' : isStatusEvent env = false := by
      cases h : isStatusEvent env
      · rfl
      · exact absurd h hst
    simp [transformStatusEvent, hst']

/-- The chat mapper can only throw through the build step. -/
theorem chatNoThrow (cfg : TransformerConfig) (iso : Int → String) (env : Envelope)
    (hb : ∀ md, env.data.bind (·.data) = some md →
      ∃ ts, buildTimestamp iso env md = Except.ok ts) :
    ∀ e, transformChatMessage cfg iso env ≠ Except.error e := by
  intro e
  cases hd : env.data.bind (·.data) with
  | none => simp [transformChatMessage, hd]
  | some od =>
    by_cases hty : typeInMessageTypes cfg.messageTypes od = true
    · obtain ⟨ts, hts'⟩ := hb od hd
      simp [transformChatMessage, hd, hty, hts']
    · simp [transformChatMessage, hd, hty]

/-- Chat message whose truthy timestamp (10^13 s) denotes an
unrepresentable date (10^16 ms > 8.64e15 ms). -/
def c9BadMd : MsgData :=
  ⟨some "chat", none, some "hi", some 1, none, none, none, some 10000000000000, none⟩

/-- Raw event wrapping `c9BadMd`. -/
def c9BadRaw : RawEvent := ⟨some "message_create", some c9BadMd, none⟩

/-- Envelope wrapping `c9BadRaw`. -/
def c9BadEnv : Envelope := ⟨7, "now", some c9BadRaw⟩

/-- C9 counterexample: a chat message with a truthy out-of-range
timestamp makes `_buildBaseTransformedEvent`'s
`new Date(timestamp * 1000).toISOString()` throw `RangeError`, which
escapes `transform` — so transform DOES raise on some malformed inputs;
the throw is caught only upstream in `EventProcessor.processEvent`,
which turns it into the error action. -/
theorem c9_counterexample :
    (transform defaultConfig toString c9BadEnv = Except.error JsError.rangeError)
    ∧ (processEventWith (shouldIgnoreEvent defaultConfig.ignoredTypes)
        (transform defaultConfig toString) true 7 "now" c9BadRaw
      = ProcResult.errorEv "Invalid time value" (some "message_create")) :=
  ⟨rfl, rfl⟩

/-- C9 amended: for every input event whose truthy message timestamps
denote representable dates (time value within 8.64e15 ms of the epoch),
`transform` and `isIgnored` never raise: the result is null (exactly
when ignored), a best-effort partial normalized event, or the
passthrough envelope; outside that range the `toISOString` call throws
a `RangeError` that escapes `transform` and is caught upstream in
`EventProcessor.processEvent` as an error outcome. -/
theorem c9_amended (cfg : TransformerConfig) (iso : Int → String) (env : Envelope)
    (hts : ∀ md, env.data.bind (·.data) = some md → truthyI md.timestamp = true →
      ((md.timestamp.getD 0) * 1000).natAbs ≤ 8640000000000000) :
    (shouldIgnoreEvent cfg.ignoredTypes env = true
      ∧ transform cfg iso env = Except.ok TransformResult.filtered)
    ∨ (∃ t, transform cfg iso env = Except.ok (TransformResult.normalized t))
    ∨ transform cfg iso env = Except.ok (TransformResult.passthrough env) := by
  have hb : ∀ md, env.data.bind (·.data) = some md →
      ∃ ts, buildTimestamp iso env md = Except.ok ts :=
    fun md hd => buildNoThrow iso env md (hts md hd)
  by_cases hIgn : shouldIgnoreEvent cfg.ignoredTypes env = true
  · exact Or.inl ⟨hIgn, by simp [transform, hIgn]⟩
  · have hIgn' : shouldIgnoreEvent cfg.ignoredTypes env = false := by
      cases h : shouldIgnoreEvent cfg.ignoredTypes env
      · rfl
      · exact absurd h hIgn
    cases hs : transformStatusEvent cfg iso env with
    | error e => exact absurd hs (statusNoThrow cfg iso env hb e)
    | ok rs =>
      cases rs with
      | some t => exact Or.inr (Or.inl ⟨t, by simp [transform, hIgn', hs]⟩)
      | none =>
        cases hc : transformChatMessage cfg iso env with
        | error e => exact absurd hc (chatNoThrow cfg iso env hb e)
        | ok rc =>
          cases rc with
          | some t => exact Or.inr (Or.inl ⟨t, by simp [transform, hIgn', hs, hc]⟩)
          | none => exact Or.inr (Or.inr (by simp [transform, hIgn', hs, hc]))

/-- Raw event with no message data for the C9 amended witness. -/
def c9OkRaw : RawEvent := ⟨some "presence_update", none, none⟩

/-- Envelope wrapping `c9OkRaw`. -/
def c9OkEnv : Envelope := ⟨4, "ok", some c9OkRaw⟩

/-- C9 amended, concrete witness: an event with no message data (hence
no truthy timestamp) lands in one of the three no-raise shapes. -/
theorem c9_amended_witness :
    (shouldIgnoreEvent defaultConfig.ignoredTypes c9OkEnv = true
      ∧ transform defaultConfig toString c9OkEnv = Except.ok TransformResult.filtered)
    ∨ (∃ t, transform defaultConfig toString c9OkEnv
        = Except.ok (TransformResult.normalized t))
    ∨ transform defaultConfig toString c9OkEnv
        = Except.ok (TransformResult.passthrough c9OkEnv) :=
  c9_amended defaultConfig toString c9OkEnv (fun _ h _ => Option.noConfusion h)

/-- The lifecycle type stored in a normalized chat payload. -/
def normalizedChatType : Except JsError (Option TransformedEvent) → Option String
  | Except.ok (some ⟨_, _, TData.chat d⟩) => d.type
  | _ => none

/-- The special-type switch leaves a plain `chat` message untouched. -/
theorem handleSpecialChat (cfg : TransformerConfig) (od : MsgData) (d : ChatData)
    (h : od.type = some "chat") : handleSpecialMessageTypes cfg od d = d := by
  simp [handleSpecialMessageTypes, h]

/-- For a configured `chat` message whose build step succeeds the
normalized lifecycle type is exactly the ack-level mapping. -/
theorem chatTypeAck (cfg : TransformerConfig) (iso : Int → String) (env : Envelope)
    (od : MsgData) (ts : String) (hd : env.data.bind (·.data) = some od)
    (hty : od.type = some "chat") (hin : cfg.messageTypes.contains "chat" = true)
    (hts : buildTimestamp iso env od = Except.ok ts) :
    normalizedChatType (transformChatMessage cfg iso env)
      = getEventTypeByAck cfg.eventTypes od.ack false := by
  have hgate : typeInMessageTypes cfg.messageTypes od = true := by
    simp only [typeInMessageTypes, hty]
    exact hin
  simp only [transformChatMessage, hd, hgate, if_true]
  rw [handleSpecialChat cfg od _ hty, hts]
  by_cases hb : truthy od.body ∧ od.type = some "chat"
  · rw [if_pos hb]
    rfl
  · rw [if_neg hb]
    rfl

/-- A status event whose ack level is unmapped produces no event: the
decline happens before the build step, so it never throws. -/
theorem statusDeclineUnmappedAck (cfg : TransformerConfig) (iso : Int → String)
    (env : Envelope) (od : MsgData) (hd : env.data.bind (·.data) = some od)
    (hst : isStatusEvent env = true)
    (hack : getEventTypeByAck cfg.eventTypes od.ack true = none) :
    transformStatusEvent cfg iso env = Except.ok none := by
  simp [transformStatusEvent, hst, hd, hack, truthy]

/-- C4: under the default vocabulary, durable ack levels 1/2/3/4 map to
the sent/delivered/read/played lifecycle states ("message_sent",
"message_delivered", "message_read", "message_played"), an absent or
out-of-range ack maps to the creation state "message_created"; for
ephemeral status events acks 1/2/3 map to status_created /
status_received / status_read and any other ack yields no event — the
status transform declines, returning null. -/
theorem c4_ack_mapping (iso : Int → String) (env env2 : Envelope)
    (od od2 : MsgData) (a : Int) (ts : String) :
    (getEventTypeByAck defaultEventTypes (some 1) false = some "message_sent")
    ∧ (getEventTypeByAck defaultEventTypes (some 2) false = some "message_delivered")
    ∧ (getEventTypeByAck defaultEventTypes (some 3) false = some "message_read")
    ∧ (getEventTypeByAck defaultEventTypes (some 4) false = some "message_played")
    ∧ (getEventTypeByAck defaultEventTypes none false = some "message_created")
    ∧ (a ≠ 1 → a ≠ 2 → a ≠ 3 → a ≠ 4 →
        getEventTypeByAck defaultEventTypes (some a) false = some "message_created")
    ∧ (getEventTypeByAck defaultEventTypes (some 1) true = some "status_created")
    ∧ (getEventTypeByAck defaultEventTypes (some 2) true = some "status_received")
    ∧ (getEventTypeByAck defaultEventTypes (some 3) true = some "status_read")
    ∧ (getEventTypeByAck defaultEventTypes none true = none)
    ∧ (a ≠ 1 → a ≠ 2 → a ≠ 3 →
        getEventTypeByAck defaultEventTypes (some a) true = none)
    ∧ (env.data.bind (·.data) = some od → od.type = some "chat" →
        buildTimestamp iso env od = Except.ok ts →
        normalizedChatType (transformChatMessage defaultConfig iso env)
          = getEventTypeByAck defaultEventTypes od.ack false)
    ∧ (env2.data.bind (·.data) = some od2 → isStatusEvent env2 = true →
        getEventTypeByAck defaultEventTypes od2.ack true = none →
        transformStatusEvent defaultConfig iso env2 = Except.ok none) := by
  refine ⟨rfl, rfl, rfl, rfl, rfl, ?_, rfl, rfl, rfl, rfl, ?_, ?_, ?_⟩
  · intro h1 h2 h3 h4
    simp [getEventTypeByAck, Option.some.injEq, h1, h2, h3, h4, jsOr, truthy,
      defaultEventTypes]
  · intro h1 h2 h3
    simp [getEventTypeByAck, Option.some.injEq, h1, h2, h3, jsOr, truthy,
      defaultEventTypes]
  · intro hd hty hts
    exact chatTypeAck defaultConfig iso env od ts hd hty (by decide) hts
  · intro hd hst hack
    exact statusDeclineUnmappedAck defaultConfig iso env2 od2 hd hst hack

/-- Concrete chat message with ack 2 for the C4 witness. -/
def c4ChatMd : MsgData :=
  ⟨some "chat", none, some "hi", some 2, none, some ⟨some "111"⟩, some ⟨some "222"⟩,
    some 1700000000, none⟩

/-- Envelope of the C4 chat witness. -/
def c4ChatEnv : Envelope := ⟨9, "iso0", some ⟨some "message_delivered", some c4ChatMd, none⟩⟩

/-- Concrete status message with unmapped ack 5 for the C4 witness. -/
def c4StatusMd : MsgData :=
  ⟨some "image", none, none, some 5,
    some ⟨some "sid1", none, some ⟨some "status@broadcast", none⟩, none, some false⟩,
    none, none, none, none⟩

/-- Envelope of the C4 status witness. -/
def c4StatusEnv : Envelope := ⟨9, "iso0", some ⟨some "message_read", some c4StatusMd, none⟩⟩

/-- C4 witness: out-of-range ack 9 yields the creation state for durable
content and no event for status content; ack 2 on a chat message yields
the delivered state; status ack 5 declines. -/
theorem c4_witness :
    (getEventTypeByAck defaultEventTypes (some 9) false = some "message_created")
    ∧ (getEventTypeByAck defaultEventTypes (some 9) true = none)
    ∧ (normalizedChatType (transformChatMessage defaultConfig toString c4ChatEnv)
        = getEventTypeByAck defaultEventTypes (some 2) false)
    ∧ (transformStatusEvent defaultConfig toString c4StatusEnv = Except.ok none) := by
  obtain ⟨_, _, _, _, _, h6, _, _, _, _, h11, h12, h13⟩ :=
    c4_ack_mapping toString c4ChatEnv c4StatusEnv c4ChatMd c4StatusMd 9 "1700000000000"
  exact ⟨h6 (by decide) (by decide) (by decide) (by decide),
         h11 (by decide) (by decide) (by decide),
         h12 rfl rfl rfl,
         h13 rfl (by decide) (by decide)⟩

/-- C7: under the polling scheduler with max-retries 3, a successfully
completed batch resets the consecutive-failure counter to zero and
schedules the next regular poll; three consecutive transient poll errors
walk the counter 0→1→2→3, the third stops the scheduler with nothing
scheduled; and a stopped scheduler never schedules another poll. -/
theorem c7_scheduler (cfg : TransformerConfig) (iso : Int → String) (avail : Bool)
    (r n : Nat) (stats : EventStats) (items : List BatchItem) :
    (pollTick cfg iso avail 3 ⟨true, r, stats⟩ true (PollObs.success items)
      = (⟨true, 0, processBatch cfg iso avail stats items⟩, some NextPoll.interval))
    ∧ (pollTick cfg iso avail 3 ⟨true, 0, stats⟩ true (PollObs.failure false)
      = (⟨true, 1, stats⟩, some NextPoll.retryDelay))
    ∧ (pollTick cfg iso avail 3 ⟨true, 1, stats⟩ true (PollObs.failure false)
      = (⟨true, 2, stats⟩, some NextPoll.retryDelay))
    ∧ (pollTick cfg iso avail 3 ⟨true, 2, stats⟩ true (PollObs.failure false)
      = (⟨false, 3, stats⟩, none))
    ∧ (∀ alive obs, pollTick cfg iso avail 3 ⟨false, n, stats⟩ alive obs
      = (⟨false, n, stats⟩, none)) :=
  ⟨rfl, rfl, rfl, rfl, fun _ _ => rfl⟩

/-- C8: an event whose publish step throws is recorded in the event
stats as one more error, the rest of the batch is still processed
(processing the batch equals processing the failed event and then the
remaining events), and the scheduler keeps running after such a batch. -/
theorem c8_publish_failure_isolated (cfg : TransformerConfig) (iso : Int → String)
    (stats : EventStats) (pre post : List BatchItem) (it : BatchItem) (m : String)
    (payload : PubPayload) (et : Option String) (wt : Bool) (r : Nat)
    (hpub : it.pub = PubOutcome.err m)
    (hproc : processEvent cfg iso true it.envId it.nowIso it.event
      = ProcResult.publishEv payload et wt) :
    (processBatch cfg iso true stats (pre ++ it :: post)
      = processBatch cfg iso true
          ((bridgeProcessEvent cfg iso true (processBatch cfg iso true stats pre) it).1)
          post)
    ∧ ((bridgeProcessEvent cfg iso true (processBatch cfg iso true stats pre) it).1.errors
      = (processBatch cfg iso true stats pre).errors + 1)
    ∧ ((pollTick cfg iso true 3 ⟨true, r, stats⟩ true
        (PollObs.success (pre ++ it :: post))).1.isRunning = true) := by
  refine ⟨?_, ?_, rfl⟩
  · rw [processBatch, List.foldl_append]
    rfl
  · simp only [bridgeProcessEvent, hproc, hpub]
    rfl

/-- Concrete passthrough raw event for the C8 witness. -/
def c8Raw : RawEvent := ⟨some "connection_state", none, none⟩

/-- Concrete batch item whose publish throws, for the C8 witness. -/
def c8Item : BatchItem := ⟨1, "t0", c8Raw, PubOutcome.err "boom"⟩

/-- Zeroed stats for the C8 witness. -/
def c8Stats : EventStats := ⟨0, 0, 0, 0, []⟩

/-- C8 witness: a one-event batch whose publish throws records one error
and leaves the scheduler running. -/
theorem c8_witness :
    (processBatch defaultConfig toString true c8Stats ([] ++ c8Item :: [])
      = processBatch defaultConfig toString true
          ((bridgeProcessEvent defaultConfig toString true
            (processBatch defaultConfig toString true c8Stats []) c8Item).1) [])
    ∧ ((bridgeProcessEvent defaultConfig toString true
          (processBatch defaultConfig toString true c8Stats []) c8Item).1.errors
      = (processBatch defaultConfig toString true c8Stats []).errors + 1)
    ∧ ((pollTick defaultConfig toString true 3 ⟨true, 0, c8Stats⟩ true
        (PollObs.success ([] ++ c8Item :: []))).1.isRunning = true) :=
  c8_publish_failure_isolated defaultConfig toString c8Stats [] [] c8Item "boom"
    (PubPayload.env ⟨1, "t0", some c8Raw⟩) (some "connection_state") false 0 rfl (by decide)

/-- Outcomes that bump the total once (publish succeeded, or skipped). -/
def onceOutcome (o : Outcome) : Bool :=
  o == Outcome.published || o == Outcome.skipped

/-- Outcomes that bump the total twice (ignored, filtered, errored). -/
def twiceOutcome (o : Outcome) : Bool :=
  o == Outcome.ignoredO || o == Outcome.filteredO || o == Outcome.erroredO

/-- The weight of an outcome splits over the two outcome classes. -/
theorem weightSplit (o : Outcome) :
    outcomeWeight o
      = (if onceOutcome o = true then 1 else 0)
        + 2 * (if twiceOutcome o = true then 1 else 0) := by
  cases o <;> rfl

/-- One bridge step bumps the total by the weight of its outcome. -/
theorem bridgeTotalWeight (cfg : TransformerConfig) (iso : Int → String) (avail : Bool)
    (s : EventStats) (it : BatchItem) :
    (bridgeProcessEvent cfg iso avail s it).1.total
      = s.total + outcomeWeight (outcomeOf cfg iso avail it) := by
  cases hp : processEvent cfg iso avail it.envId it.nowIso it.event <;>
    cases hb : it.pub <;>
      simp [bridgeProcessEvent, outcomeOf, hp, hb, updateEventStats, outcomeWeight]

/-- Concrete ciphertext message for the C10 closed instance. -/
def c10Md : MsgData := ⟨some "ciphertext", none, none, none, none, none, none, none, none⟩

/-- Concrete ignored raw event for the C10 closed instance. -/
def c10Raw : RawEvent := ⟨some "message_create", some c10Md, none⟩

/-- C10: the total event counter advances once on receipt and a second
time for ignored, filtered, and errored outcomes, so after a batch the
total equals the previous total plus the number of published-or-skipped
events plus twice the number of ignored, filtered, and errored events;
in particular one ignored raw event yields a total of 2, exceeding the
number of raw events received. -/
theorem c10_total_counts :
    (∀ (cfg : TransformerConfig) (iso : Int → String) (avail : Bool)
      (stats : EventStats) (items : List BatchItem),
      (processBatch cfg iso avail stats items).total
        = stats.total
          + items.countP (fun it => onceOutcome (outcomeOf cfg iso avail it))
          + 2 * items.countP (fun it => twiceOutcome (outcomeOf cfg iso avail it)))
    ∧ 1 < (processBatch defaultConfig toString true ⟨0, 0, 0, 0, []⟩
        [⟨1, "t0", c10Raw, PubOutcome.ok⟩]).total := by
  constructor
  · intro cfg iso avail stats items
    induction items generalizing stats with
    | nil => simp [processBatch]
    | cons it rest ih =>
      have hstep : processBatch cfg iso avail stats (it :: rest)
          = processBatch cfg iso avail ((bridgeProcessEvent cfg iso avail stats it).1) rest :=
        rfl
      rw [hstep, ih, bridgeTotalWeight, List.countP_cons, List.countP_cons, weightSplit]
      by_cases h1 : onceOutcome (outcomeOf cfg iso avail it) = true <;>
        by_cases h2 : twiceOutcome (outcomeOf cfg iso avail it) = true <;>
          simp [h1, h2] <;> omega
  · decide
